import Mathlib

/-!
Verification development for the gamepad MCP server
(event taxonomy & validator, WebSocket connection manager, tool dispatch).

The definitions below are a shallow embedding of the TypeScript sources:
  * `validateEvent`, `isValidButtonCode`, `isValidSliderCode` from
    `src/utils/validation.ts` (the table-driven variant, identical to the
    inline copy in `src/index.ts`);
  * `WebSocketHandler` from `src/websocket/WebSocketHandler.ts`
    (identical to the inline WebSocket logic of the monolithic
    `GamepadServer`);
  * `GamepadServer.handleCallTool` — the `send_gamepad_event` tool handler
    (the common variant), and `GamepadServer.handleCallToolStrict` — the
    refactored variant that additionally re-checks per-type value ranges
    (with triggers narrowed to [0, 1]) after sending.

JavaScript numbers are modelled as rationals; JavaScript dynamic values as
the inductive `JSValue` (`undefined` behaves exactly like `null` in every
guard of this code — `typeof` is neither string, boolean nor number — so a
single constructor covers both).
-/

namespace Mcpgame

/-- a JavaScript dynamic value, as far as this program inspects one -/
inductive JSValue where
  | bool (b : Bool)
  | num (q : ℚ)
  | str (s : String)
  | null
deriving DecidableEq, Repr

/-- error codes used by the server (`ErrorCode` of the MCP SDK) -/
inductive ErrorCode where
  | invalidParams
  | invalidRequest
  | methodNotFound
deriving DecidableEq, Repr

/-- an `McpError` as thrown by the server: a code plus a message string -/
structure McpError where
  code : ErrorCode
  message : String
deriving DecidableEq, Repr

/-- a raw `any` value handed to `validateEvent`: either not an object
(or `null`), or an object whose `type`, `code` and `value` fields are
arbitrary dynamic values -/
inductive RawEvent where
  | nonObject (v : JSValue)
  | obj (type code value : JSValue)
deriving DecidableEq, Repr

/-- a validated `GamepadEvent`: `type` and `code` are known to be strings;
`value` is the original dynamic value (boolean or number after validation) -/
structure GamepadEvent where
  type : String
  code : String
  value : JSValue
deriving DecidableEq, Repr

/-- the raw object a validated event came from (validation returns its
input unchanged, only retyped) -/
def GamepadEvent.toRaw (g : GamepadEvent) : RawEvent :=
  RawEvent.obj (JSValue.str g.type) (JSValue.str g.code) g.value

/-- the `VALID_BUTTON_EVENTS` table of `types.ts`: legal (type, code)
pairs for the discrete (boolean-valued) event kinds -/
def VALID_BUTTON_EVENTS : List (String × String) :=
  [("button", "A"), ("button", "B"), ("button", "X"), ("button", "Y"),
   ("button", "LEFT_SHOULDER"), ("button", "RIGHT_SHOULDER"),
   ("button", "LEFT_THUMB"), ("button", "RIGHT_THUMB"),
   ("button", "BACK"), ("button", "START"), ("button", "GUIDE"),
   ("button", "DPAD_UP"), ("button", "DPAD_DOWN"),
   ("button", "DPAD_LEFT"), ("button", "DPAD_RIGHT"),
   ("keyboard", "space"),
   ("mouseButton", "leftClick"), ("mouseButton", "rightClick"),
   ("mouseButton", "middleClick")]

/-- the `VALID_SLIDER_EVENTS` table of `types.ts`: legal (type, code)
pairs for the continuous (number-valued) event kinds -/
def VALID_SLIDER_EVENTS : List (String × String) :=
  [("axis", "leftX"), ("axis", "leftY"), ("axis", "rightX"),
   ("axis", "rightY"),
   ("trigger", "leftTrigger"), ("trigger", "rightTrigger")]

/-- `isValidButtonCode` of `validation.ts` -/
def isValidButtonCode (ty cd : String) : Bool :=
  VALID_BUTTON_EVENTS.any fun e => e.1 == ty && e.2 == cd

/-- `isValidSliderCode` of `validation.ts` -/
def isValidSliderCode (ty cd : String) : Bool :=
  VALID_SLIDER_EVENTS.any fun e => e.1 == ty && e.2 == cd

/-- `validateEvent` of `validation.ts`: classifies one raw input object and
either returns it (typed) or throws an `InvalidParams` `McpError` -/
def validateEvent : RawEvent → Except McpError GamepadEvent
  | RawEvent.nonObject _ =>
      Except.error ⟨ErrorCode.invalidParams,
        "Invalid event format: event must be an object"⟩
  | RawEvent.obj t c v =>
      match t, c with
      | JSValue.str ty, JSValue.str cd =>
          if ["button", "mouseButton", "keyboard"].contains ty then
            if !(isValidButtonCode ty cd) then
              Except.error ⟨ErrorCode.invalidParams,
                "Invalid " ++ ty ++ " code: " ++ cd⟩
            else
              match v with
              | JSValue.bool _ => Except.ok ⟨ty, cd, v⟩
              | _ =>
                  Except.error ⟨ErrorCode.invalidParams,
                    "Invalid value for " ++ ty ++ ": must be boolean"⟩
          else if ["axis", "trigger"].contains ty then
            if !(isValidSliderCode ty cd) then
              Except.error ⟨ErrorCode.invalidParams,
                "Invalid " ++ ty ++ " code: " ++ cd⟩
            else
              match v with
              | JSValue.num q =>
                  if q < -1 || q > 1 then
                    Except.error ⟨ErrorCode.invalidParams,
                      "Invalid value for " ++ ty ++
                        ": must be number between -1 and 1"⟩
                  else Except.ok ⟨ty, cd, v⟩
              | _ =>
                  Except.error ⟨ErrorCode.invalidParams,
                    "Invalid value for " ++ ty ++
                      ": must be number between -1 and 1"⟩
          else
            Except.error ⟨ErrorCode.invalidParams,
              "Invalid event type: " ++ ty⟩
      | _, _ =>
          Except.error ⟨ErrorCode.invalidParams,
            "Invalid event format: type and code must be strings"⟩

/-- `args.events.map(validateEvent)`: JavaScript `map` with a throwing
callback processes elements left to right and aborts at the first throw,
so the whole batch validates or the first failure is surfaced -/
def validateBatch : List RawEvent → Except McpError (List GamepadEvent)
  | [] => Except.ok []
  | e :: rest =>
      match validateEvent e with
      | Except.error err => Except.error err
      | Except.ok g =>
          match validateBatch rest with
          | Except.error err => Except.error err
          | Except.ok gs => Except.ok (g :: gs)

/-- the `readyState` constants of the `ws` WebSocket class -/
inductive ReadyState where
  | CONNECTING
  | OPEN
  | CLOSING
  | CLOSED
deriving DecidableEq, Repr

/-- a live WebSocket object created by `connect`; `id` is the object's
identity (successive `new WebSocket(...)` calls yield distinct objects) -/
structure Socket where
  id : Nat
  readyState : ReadyState
deriving DecidableEq, Repr

/-- a serialized outbound frame `JSON.stringify({ events })` -/
structure EventMessage where
  events : List GamepadEvent
deriving DecidableEq, Repr

/-- state of the `WebSocketHandler` class of `WebSocketHandler.ts`
(identical to the inline `ws` / `wsReconnectInterval` logic of the
monolithic `GamepadServer`).  `ws` and `wsReconnectInterval` are the two
instance fields; `sockets` is the list of live (not yet closed) socket
objects created so far, with `nextSocket` the next fresh identity;
`timers` is the list of active interval timers with `nextTimer` the next
fresh handle; `sent` records every frame handed to the transport -/
structure WebSocketHandler where
  ws : Option Nat
  wsReconnectInterval : Option Nat
  WS_URL : String
  sockets : List Socket
  nextSocket : Nat
  timers : List Nat
  nextTimer : Nat
  sent : List EventMessage
deriving DecidableEq, Repr

/-- the constructor `new WebSocketHandler(wsUrl)`: both fields start null -/
def mkWebSocketHandler (wsUrl : String) : WebSocketHandler :=
  { ws := none, wsReconnectInterval := none, WS_URL := wsUrl,
    sockets := [], nextSocket := 0, timers := [], nextTimer := 0,
    sent := [] }

/-- the `readyState` of the socket object with identity `i`, if it is
still live -/
def socketState (s : WebSocketHandler) (i : Nat) : Option ReadyState :=
  (s.sockets.find? fun sk => sk.id == i).map Socket.readyState

/-- the optional chain `this.ws?.readyState` -/
def WebSocketHandler.wsReadyState (s : WebSocketHandler) : Option ReadyState :=
  s.ws.bind (socketState s)

/-- `connect()`: a no-op when `this.ws?.readyState === WebSocket.OPEN`;
otherwise creates a fresh socket (initially CONNECTING) and overwrites
`this.ws` with it.  The previous socket object, if any, is neither closed
nor forgotten by the runtime — only the manager's reference moves.
(Creating the socket for the fixed, well-formed URL does not throw, so the
`catch` branch of the source is unreachable here.) -/
def WebSocketHandler.connect (s : WebSocketHandler) : WebSocketHandler :=
  if s.wsReadyState = some ReadyState.OPEN then s
  else
    { s with
        ws := some s.nextSocket
        sockets := s.sockets ++ [⟨s.nextSocket, ReadyState.CONNECTING⟩]
        nextSocket := s.nextSocket + 1 }

/-- `setupReconnection()`: arms a fresh interval timer only when none is
pending (`if (!this.wsReconnectInterval)`) -/
def WebSocketHandler.setupReconnection (s : WebSocketHandler) : WebSocketHandler :=
  match s.wsReconnectInterval with
  | some _ => s
  | none =>
      { s with
          wsReconnectInterval := some s.nextTimer
          timers := s.timers ++ [s.nextTimer]
          nextTimer := s.nextTimer + 1 }

/-- `handleOpen()`: cancels the reconnection timer if one is armed -/
def WebSocketHandler.handleOpen (s : WebSocketHandler) : WebSocketHandler :=
  match s.wsReconnectInterval with
  | some t =>
      { s with timers := s.timers.erase t, wsReconnectInterval := none }
  | none => s

/-- `handleClose(code, reason)`: nulls `this.ws` (unconditionally — the
listener does not check which socket closed) and arms reconnection -/
def WebSocketHandler.handleClose (s : WebSocketHandler) : WebSocketHandler :=
  WebSocketHandler.setupReconnection { s with ws := none }

/-- `handleError(error)`: logs only; the manager state is untouched -/
def WebSocketHandler.handleError (s : WebSocketHandler) : WebSocketHandler :=
  s

/-- `send(event)`: accepts one event or an array; a no-op unless `this.ws`
is set and OPEN; otherwise serializes `{ events }` (wrapping a single
event into a one-element array) and transmits it as one frame -/
def WebSocketHandler.send (s : WebSocketHandler)
    (event : GamepadEvent ⊕ List GamepadEvent) : WebSocketHandler :=
  match s.ws with
  | none => s
  | some i =>
      if socketState s i = some ReadyState.OPEN then
        { s with
            sent := s.sent ++
              [⟨match event with
                | Sum.inl e => [e]
                | Sum.inr l => l⟩] }
      else s

/-- environment action: the socket object `i` completes its handshake
(CONNECTING becomes OPEN); its `open` listener then runs `handleOpen` -/
def setSocketOpen (s : WebSocketHandler) (i : Nat) : WebSocketHandler :=
  { s with
      sockets := s.sockets.map fun sk =>
        if sk.id == i then { sk with readyState := ReadyState.OPEN } else sk }

/-- environment action: the socket object `i` is closed by the peer or
the network and ceases to be live; its `close` listener then runs
`handleClose` -/
def dropSocket (s : WebSocketHandler) (i : Nat) : WebSocketHandler :=
  { s with sockets := s.sockets.filter fun sk => !(sk.id == i) }

/-- one transition of the connection manager: a reconnection-timer tick
(which calls `connect`), or a transport notification (open / error /
close) delivered to one of the live sockets, all of which keep their
listeners even after the manager's `ws` reference moves on -/
inductive Step : WebSocketHandler → WebSocketHandler → Prop where
  | timerTick (s : WebSocketHandler) (t : Nat)
      (h : s.wsReconnectInterval = some t) :
      Step s (WebSocketHandler.connect s)
  | socketOpen (s : WebSocketHandler) (i : Nat)
      (h : socketState s i = some ReadyState.CONNECTING) :
      Step s (WebSocketHandler.handleOpen (setSocketOpen s i))
  | socketError (s : WebSocketHandler) (i : Nat)
      (h : (socketState s i).isSome = true) :
      Step s (WebSocketHandler.handleError s)
  | socketClose (s : WebSocketHandler) (i : Nat)
      (h : (socketState s i).isSome = true) :
      Step s (WebSocketHandler.handleClose (dropSocket s i))
  | sendCall (s : WebSocketHandler)
      (event : GamepadEvent ⊕ List GamepadEvent) :
      Step s (WebSocketHandler.send s event)

/-- the manager state right after the `GamepadServer` constructor: a
fresh handler for the fixed endpoint on which `connect()` was called once -/
def initWSH : WebSocketHandler :=
  WebSocketHandler.connect (mkWebSocketHandler "ws://127.0.0.1:13123")

/-- reachability of a manager state from the post-constructor state -/
def Reachable (s : WebSocketHandler) : Prop :=
  Relation.ReflTransGen Step initWSH s

/-- the shape of `request.params.arguments` as inspected by the guard
`!args || !('events' in args) || !Array.isArray(args.events)` -/
inductive ToolArgs where
  | absent
  | missingEvents
  | eventsNonArray (v : JSValue)
  | eventsArray (es : List RawEvent)
deriving DecidableEq, Repr

/-- the success payload `{ success, eventsReceived, message }` returned by
the `send_gamepad_event` tool -/
structure CallResult where
  success : Bool
  eventsReceived : Nat
  message : String
deriving DecidableEq, Repr

/-- state of the `GamepadServer` class: the last validated batch plus the
owned connection manager -/
structure GamepadServer where
  lastEvents : List GamepadEvent
  wsHandler : WebSocketHandler
deriving DecidableEq, Repr

/-- the `GamepadServer` constructor: empty `lastEvents`, a fresh
`WebSocketHandler` on which `connect()` has been called -/
def initGamepadServer : GamepadServer :=
  { lastEvents := [], wsHandler := initWSH }

/-- the `CallTool` handler (common variant, as in the monolithic server
and the plain refactored server): guard the envelope, validate every
event, overwrite `lastEvents`, hand the batch to the transport, and
report success with the count of events.  A thrown `McpError` is returned
in the `Except`; the first component is the server state afterwards
(mutations performed before a throw persist) -/
def GamepadServer.handleCallTool (srv : GamepadServer) (toolName : String)
    (args : ToolArgs) : GamepadServer × Except McpError CallResult :=
  if toolName = "send_gamepad_event" then
    match args with
    | ToolArgs.eventsArray es =>
        match validateBatch es with
        | Except.error err => (srv, Except.error err)
        | Except.ok validated =>
            ({ srv with
                lastEvents := validated
                wsHandler := srv.wsHandler.send (Sum.inr validated) },
              Except.ok
                ⟨true, validated.length,
                  "Events validated and sent successfully"⟩)
    | _ =>
        (srv, Except.error ⟨ErrorCode.invalidParams,
          "Invalid event message format: missing or invalid events array"⟩)
  else
    (srv, Except.error ⟨ErrorCode.methodNotFound,
      "Unknown tool: " ++ toolName⟩)

/-- the per-event `switch` of the refactored handler variant (run via
`forEach` after the batch has already been stored and sent): discrete
types must be boolean, axis values in [-1, 1], trigger values in [0, 1];
types outside the five cases fall through -/
def recheckEvent (e : GamepadEvent) : Except McpError Unit :=
  if e.type = "button" ∨ e.type = "mouseButton" ∨ e.type = "keyboard" then
    match e.value with
    | JSValue.bool _ => Except.ok ()
    | _ =>
        Except.error ⟨ErrorCode.invalidParams,
          e.type ++ " events require boolean values"⟩
  else if e.type = "axis" then
    match e.value with
    | JSValue.num q =>
        if q < -1 || q > 1 then
          Except.error ⟨ErrorCode.invalidParams,
            "Axis values must be numbers between -1 and 1"⟩
        else Except.ok ()
    | _ =>
        Except.error ⟨ErrorCode.invalidParams,
          "Axis values must be numbers between -1 and 1"⟩
  else if e.type = "trigger" then
    match e.value with
    | JSValue.num q =>
        if q < 0 || q > 1 then
          Except.error ⟨ErrorCode.invalidParams,
            "Trigger values must be numbers between 0 and 1"⟩
        else Except.ok ()
    | _ =>
        Except.error ⟨ErrorCode.invalidParams,
          "Trigger values must be numbers between 0 and 1"⟩
  else Except.ok ()

/-- `validatedEvents.forEach(...)`: runs `recheckEvent` left to right,
aborting at the first throw -/
def recheckEvents : List GamepadEvent → Except McpError Unit
  | [] => Except.ok ()
  | e :: rest =>
      match recheckEvent e with
      | Except.error err => Except.error err
      | Except.ok _ => recheckEvents rest

/-- the `CallTool` handler of the refactored variant that performs the
per-type second pass: note that `lastEvents` is overwritten and the frame
transmitted BEFORE `recheckEvents` runs, so a batch rejected by the
second pass has already taken effect -/
def GamepadServer.handleCallToolStrict (srv : GamepadServer)
    (toolName : String) (args : ToolArgs) :
    GamepadServer × Except McpError CallResult :=
  if toolName = "send_gamepad_event" then
    match args with
    | ToolArgs.eventsArray es =>
        match validateBatch es with
        | Except.error err => (srv, Except.error err)
        | Except.ok validated =>
            let srv1 : GamepadServer :=
              { srv with
                  lastEvents := validated
                  wsHandler := srv.wsHandler.send (Sum.inr validated) }
            match recheckEvents validated with
            | Except.error err => (srv1, Except.error err)
            | Except.ok _ =>
                (srv1, Except.ok
                  ⟨true, validated.length,
                    "Events validated and sent successfully"⟩)
    | _ =>
        (srv, Except.error ⟨ErrorCode.invalidParams,
          "Invalid event message format: missing or invalid events array"⟩)
  else
    (srv, Except.error ⟨ErrorCode.methodNotFound,
      "Unknown tool: " ++ toolName⟩)

/-- the code sets of the taxonomy, spelled out per type (spec section 3):
axis codes -/
def axisCodes : List String := ["leftX", "leftY", "rightX", "rightY"]

/-- trigger codes of the taxonomy -/
def triggerCodes : List String := ["leftTrigger", "rightTrigger"]

/-- button codes of the taxonomy -/
def buttonCodes : List String :=
  ["A", "B", "X", "Y", "LEFT_SHOULDER", "RIGHT_SHOULDER", "LEFT_THUMB",
   "RIGHT_THUMB", "BACK", "START", "GUIDE", "DPAD_UP", "DPAD_DOWN",
   "DPAD_LEFT", "DPAD_RIGHT"]

/-- mouse-button codes of the taxonomy -/
def mouseButtonCodes : List String := ["leftClick", "rightClick", "middleClick"]

/-- keyboard codes of the taxonomy -/
def keyboardCodes : List String := ["space"]

/-- the code set belonging to a discrete event type -/
def discreteCodes (ty : String) : List String :=
  if ty = "button" then buttonCodes
  else if ty = "mouseButton" then mouseButtonCodes
  else keyboardCodes

/-- the single-timer invariant of the connection manager: the
`wsReconnectInterval` field and the list of live interval timers agree,
and at most one timer is live -/
def TimerInv (s : WebSocketHandler) : Prop :=
  (s.wsReconnectInterval = none ∧ s.timers = []) ∨
  (∃ t : Nat, s.wsReconnectInterval = some t ∧ s.timers = [t])

/-- a reachable manager state with a pending reconnection timer: the
initial connection attempt was closed by the peer -/
def pendingWSH : WebSocketHandler :=
  WebSocketHandler.handleClose (dropSocket initWSH 0)

/-- a reachable manager state whose socket is OPEN: the initial
connection attempt completed its handshake -/
def connectedWSH : WebSocketHandler :=
  WebSocketHandler.handleOpen (setSocketOpen initWSH 0)

/-- trace state for the double-connect scenario: the initial attempt was
closed, arming the reconnection timer -/
def c5s2 : WebSocketHandler := WebSocketHandler.handleClose (dropSocket initWSH 0)

/-- trace state: the timer ticked once, creating a second connection
attempt (socket 1, CONNECTING) -/
def c5s3 : WebSocketHandler := WebSocketHandler.connect c5s2

/-- trace state: the timer ticked again while socket 1 was still
CONNECTING, creating socket 2 alongside it -/
def c5s4 : WebSocketHandler := WebSocketHandler.connect c5s3

/-- a server whose transport is connected, for exercising the refactored
handler variant -/
def strictConnServer : GamepadServer :=
  { lastEvents := [], wsHandler := connectedWSH }

section ValidatorLemmas

set_option maxRecDepth 4000

theorem slider_code_axis (cd : String) :
    isValidSliderCode "axis" cd = true ↔ cd ∈ axisCodes := by
  simp [isValidSliderCode, VALID_SLIDER_EVENTS, axisCodes]
  constructor <;> rintro (h | h | h | h) <;> subst h <;> simp

theorem slider_code_trigger (cd : String) :
    isValidSliderCode "trigger" cd = true ↔ cd ∈ triggerCodes := by
  simp [isValidSliderCode, VALID_SLIDER_EVENTS, triggerCodes]
  constructor <;> rintro (h | h) <;> subst h <;> simp

theorem button_code_button (cd : String) :
    isValidButtonCode "button" cd = true ↔ cd ∈ buttonCodes := by
  simp [isValidButtonCode, VALID_BUTTON_EVENTS, buttonCodes]
  constructor <;>
    rintro (h | h | h | h | h | h | h | h | h | h | h | h | h | h | h) <;>
    subst h <;> simp

theorem button_code_mouse (cd : String) :
    isValidButtonCode "mouseButton" cd = true ↔ cd ∈ mouseButtonCodes := by
  simp [isValidButtonCode, VALID_BUTTON_EVENTS, mouseButtonCodes]
  constructor <;> rintro (h | h | h) <;> subst h <;> simp

theorem button_code_keyboard (cd : String) :
    isValidButtonCode "keyboard" cd = true ↔ cd ∈ keyboardCodes := by
  simp [isValidButtonCode, VALID_BUTTON_EVENTS, keyboardCodes]
  constructor <;> rintro h <;> subst h <;> simp

theorem validateEvent_axis_iff (cd : String) (v : JSValue) :
    (validateEvent (RawEvent.obj (JSValue.str "axis") (JSValue.str cd) v)).isOk
        = true ↔
      (cd ∈ axisCodes ∧ ∃ q : ℚ, v = JSValue.num q ∧ -1 ≤ q ∧ q ≤ 1) := by
  have hcode := slider_code_axis cd
  cases hb : isValidSliderCode "axis" cd with
  | false =>
      have hmem : ¬ cd ∈ axisCodes := by simp [← hcode, hb]
      cases v <;> simp [validateEvent, hb, hmem, Except.isOk, Except.toBool]
  | true =>
      have hmem : cd ∈ axisCodes := hcode.mp hb
      cases v with
      | num q =>
          by_cases h1 : q < -1
          · simp [validateEvent, hb, h1, Except.isOk, Except.toBool]
          · by_cases h2 : q > 1
            · simp [validateEvent, hb, h1, h2, Except.isOk, Except.toBool]
            · simp [validateEvent, hb, h1, h2, Except.isOk, Except.toBool, hmem]
              exact ⟨le_of_not_lt (by simpa using h1),
                le_of_not_lt (by simpa using h2)⟩
      | bool b => simp [validateEvent, hb, Except.isOk, Except.toBool]
      | str s => simp [validateEvent, hb, Except.isOk, Except.toBool]
      | null => simp [validateEvent, hb, Except.isOk, Except.toBool]

theorem validateEvent_trigger_iff (cd : String) (v : JSValue) :
    (validateEvent (RawEvent.obj (JSValue.str "trigger") (JSValue.str cd) v)).isOk
        = true ↔
      (cd ∈ triggerCodes ∧ ∃ q : ℚ, v = JSValue.num q ∧ -1 ≤ q ∧ q ≤ 1) := by
  have hcode := slider_code_trigger cd
  cases hb : isValidSliderCode "trigger" cd with
  | false =>
      have hmem : ¬ cd ∈ triggerCodes := by simp [← hcode, hb]
      cases v <;> simp [validateEvent, hb, hmem, Except.isOk, Except.toBool]
  | true =>
      have hmem : cd ∈ triggerCodes := hcode.mp hb
      cases v with
      | num q =>
          by_cases h1 : q < -1
          · simp [validateEvent, hb, h1, Except.isOk, Except.toBool]
          · by_cases h2 : q > 1
            · simp [validateEvent, hb, h1, h2, Except.isOk, Except.toBool]
            · simp [validateEvent, hb, h1, h2, Except.isOk, Except.toBool, hmem]
              exact ⟨le_of_not_lt (by simpa using h1),
                le_of_not_lt (by simpa using h2)⟩
      | bool b => simp [validateEvent, hb, Except.isOk, Except.toBool]
      | str s => simp [validateEvent, hb, Except.isOk, Except.toBool]
      | null => simp [validateEvent, hb, Except.isOk, Except.toBool]

theorem validateEvent_button_iff (cd : String) (v : JSValue) :
    (validateEvent (RawEvent.obj (JSValue.str "button") (JSValue.str cd) v)).isOk
        = true ↔
      (cd ∈ buttonCodes ∧ ∃ b : Bool, v = JSValue.bool b) := by
  have hcode := button_code_button cd
  cases hb : isValidButtonCode "button" cd with
  | false =>
      have hmem : ¬ cd ∈ buttonCodes := by simp [← hcode, hb]
      cases v <;> simp [validateEvent, hb, hmem, Except.isOk, Except.toBool]
  | true =>
      have hmem : cd ∈ buttonCodes := hcode.mp hb
      cases v <;> simp [validateEvent, hb, hmem, Except.isOk, Except.toBool]

theorem validateEvent_mouse_iff (cd : String) (v : JSValue) :
    (validateEvent
        (RawEvent.obj (JSValue.str "mouseButton") (JSValue.str cd) v)).isOk
        = true ↔
      (cd ∈ mouseButtonCodes ∧ ∃ b : Bool, v = JSValue.bool b) := by
  have hcode := button_code_mouse cd
  cases hb : isValidButtonCode "mouseButton" cd with
  | false =>
      have hmem : ¬ cd ∈ mouseButtonCodes := by simp [← hcode, hb]
      cases v <;> simp [validateEvent, hb, hmem, Except.isOk, Except.toBool]
  | true =>
      have hmem : cd ∈ mouseButtonCodes := hcode.mp hb
      cases v <;> simp [validateEvent, hb, hmem, Except.isOk, Except.toBool]

theorem validateEvent_keyboard_iff (cd : String) (v : JSValue) :
    (validateEvent
        (RawEvent.obj (JSValue.str "keyboard") (JSValue.str cd) v)).isOk
        = true ↔
      (cd ∈ keyboardCodes ∧ ∃ b : Bool, v = JSValue.bool b) := by
  have hcode := button_code_keyboard cd
  cases hb : isValidButtonCode "keyboard" cd with
  | false =>
      have hmem : ¬ cd ∈ keyboardCodes := by simp [← hcode, hb]
      cases v <;> simp [validateEvent, hb, hmem, Except.isOk, Except.toBool]
  | true =>
      have hmem : cd ∈ keyboardCodes := hcode.mp hb
      cases v <;> simp [validateEvent, hb, hmem, Except.isOk, Except.toBool]

theorem validateEvent_ok_toRaw {r : RawEvent} {g : GamepadEvent}
    (h : validateEvent r = Except.ok g) : g.toRaw = r := by
  cases r with
  | nonObject v => simp [validateEvent] at h
  | obj t c v =>
      cases t <;> cases c <;> cases v <;> simp only [validateEvent] at h
      all_goals try (repeat' (split at h))
      all_goals try (cases h; rfl)
      all_goals simp at h

theorem validateBatch_ok_map {es : List RawEvent} {gs : List GamepadEvent}
    (h : validateBatch es = Except.ok gs) :
    gs.map GamepadEvent.toRaw = es := by
  induction es generalizing gs with
  | nil =>
      simp only [validateBatch] at h
      cases h
      rfl
  | cons e rest ih =>
      simp only [validateBatch] at h
      cases he : validateEvent e with
      | error err => rw [he] at h; simp at h
      | ok g =>
          rw [he] at h
          cases hr : validateBatch rest with
          | error err => rw [hr] at h; simp at h
          | ok gs' =>
              rw [hr] at h
              cases h
              simp [validateEvent_ok_toRaw he, ih hr]

theorem validateBatch_ok_length {es : List RawEvent} {gs : List GamepadEvent}
    (h : validateBatch es = Except.ok gs) : gs.length = es.length := by
  have := validateBatch_ok_map h
  calc gs.length = (gs.map GamepadEvent.toRaw).length := by simp
    _ = es.length := by rw [this]

end ValidatorLemmas

/-- C2: for every raw event whose `type` is "axis" or "trigger",
`validateEvent` succeeds exactly when the `code` is in that type's closed
code set and the `value` is a number in the closed interval [-1, 1]; in
particular -1 and 1 are accepted (for triggers as well as axes) and
anything strictly outside is rejected. -/
theorem claim_c2_slider_validation (ty cd : String) (v : JSValue)
    (hty : ty = "axis" ∨ ty = "trigger") :
    (validateEvent (RawEvent.obj (JSValue.str ty) (JSValue.str cd) v)).isOk
        = true ↔
      (cd ∈ (if ty = "axis" then axisCodes else triggerCodes) ∧
        ∃ q : ℚ, v = JSValue.num q ∧ -1 ≤ q ∧ q ≤ 1) := by
  rcases hty with h | h <;> subst h
  · simpa using validateEvent_axis_iff cd v
  · simpa using validateEvent_trigger_iff cd v

/-- C2 witness: boundary values 1 and -1 are accepted (also for a
trigger), values strictly outside [-1, 1] are rejected. -/
theorem claim_c2_slider_validation_witness :
    (validateEvent (RawEvent.obj (JSValue.str "axis") (JSValue.str "leftX")
        (JSValue.num 1))).isOk = true
  ∧ (validateEvent (RawEvent.obj (JSValue.str "axis") (JSValue.str "leftX")
        (JSValue.num (-1)))).isOk = true
  ∧ (validateEvent (RawEvent.obj (JSValue.str "trigger")
        (JSValue.str "leftTrigger") (JSValue.num (-1)))).isOk = true
  ∧ (validateEvent (RawEvent.obj (JSValue.str "axis") (JSValue.str "leftX")
        (JSValue.num 1.0001))).isOk = false
  ∧ (validateEvent (RawEvent.obj (JSValue.str "axis") (JSValue.str "leftX")
        (JSValue.num (-1.0001)))).isOk = false := by
  refine ⟨?_, ?_, ?_, ?_, ?_⟩
  · exact (claim_c2_slider_validation "axis" "leftX" _ (Or.inl rfl)).mpr
      ⟨by decide, 1, rfl, by norm_num, by norm_num⟩
  · exact (claim_c2_slider_validation "axis" "leftX" _ (Or.inl rfl)).mpr
      ⟨by decide, -1, rfl, by norm_num, by norm_num⟩
  · exact (claim_c2_slider_validation "trigger" "leftTrigger" _
        (Or.inr rfl)).mpr ⟨by decide, -1, rfl, by norm_num, by norm_num⟩
  · have h : ¬ ((validateEvent (RawEvent.obj (JSValue.str "axis")
        (JSValue.str "leftX") (JSValue.num 1.0001))).isOk = true) := by
      intro hk
      rcases (claim_c2_slider_validation "axis" "leftX" _ (Or.inl rfl)).mp hk
        with ⟨-, q, hq, -, hle⟩
      cases hq
      norm_num at hle
    simpa using h
  · have h : ¬ ((validateEvent (RawEvent.obj (JSValue.str "axis")
        (JSValue.str "leftX") (JSValue.num (-1.0001)))).isOk = true) := by
      intro hk
      rcases (claim_c2_slider_validation "axis" "leftX" _ (Or.inl rfl)).mp hk
        with ⟨-, q, hq, hge, -⟩
      cases hq
      norm_num at hge
    simpa using h

/-- C4: for every raw event whose `type` is "button", "mouseButton" or
"keyboard", `validateEvent` succeeds exactly when the `code` is in that
type's closed code set and the `value` is a boolean; a code belonging
only to a different type's set is rejected. -/
theorem claim_c4_discrete_validation (ty cd : String) (v : JSValue)
    (hty : ty = "button" ∨ ty = "mouseButton" ∨ ty = "keyboard") :
    (validateEvent (RawEvent.obj (JSValue.str ty) (JSValue.str cd) v)).isOk
        = true ↔
      (cd ∈ discreteCodes ty ∧ ∃ b : Bool, v = JSValue.bool b) := by
  rcases hty with h | h | h <;> subst h
  · simpa [discreteCodes] using validateEvent_button_iff cd v
  · simpa [discreteCodes] using validateEvent_mouse_iff cd v
  · simpa [discreteCodes] using validateEvent_keyboard_iff cd v

/-- C4 witness: "A" under "button" is accepted; "space" (a keyboard code)
and "leftX" (an axis code) under "button" are rejected; "space" under
"keyboard" is accepted. -/
theorem claim_c4_discrete_validation_witness :
    (validateEvent (RawEvent.obj (JSValue.str "button") (JSValue.str "A")
        (JSValue.bool true))).isOk = true
  ∧ (validateEvent (RawEvent.obj (JSValue.str "button") (JSValue.str "space")
        (JSValue.bool true))).isOk = false
  ∧ (validateEvent (RawEvent.obj (JSValue.str "button") (JSValue.str "leftX")
        (JSValue.bool true))).isOk = false
  ∧ (validateEvent (RawEvent.obj (JSValue.str "keyboard")
        (JSValue.str "space") (JSValue.bool true))).isOk = true := by
  refine ⟨?_, by decide, by decide, ?_⟩
  · exact (claim_c4_discrete_validation "button" "A" _ (Or.inl rfl)).mpr
      ⟨by decide, true, rfl⟩
  · exact (claim_c4_discrete_validation "keyboard" "space" _
        (Or.inr (Or.inr rfl))).mpr ⟨by decide, true, rfl⟩

/-- C7: validating a batch whose events are all individually valid returns
exactly the input events, unchanged and in order (each validated event's
underlying raw object is the corresponding input), and validating the
result again yields the same batch (idempotence). -/
theorem claim_c7_batch_identity (es : List RawEvent) (gs : List GamepadEvent)
    (h : validateBatch es = Except.ok gs) :
    gs.map GamepadEvent.toRaw = es ∧
      validateBatch (gs.map GamepadEvent.toRaw) = Except.ok gs := by
  have hmap := validateBatch_ok_map h
  exact ⟨hmap, by rw [hmap]; exact h⟩

/-- C7 witness on a concrete two-event batch. -/
theorem claim_c7_batch_identity_witness :
    (([⟨"button", "A", JSValue.bool true⟩,
        ⟨"axis", "leftX", JSValue.num 1⟩] : List GamepadEvent).map
          GamepadEvent.toRaw
        = [RawEvent.obj (JSValue.str "button") (JSValue.str "A")
            (JSValue.bool true),
           RawEvent.obj (JSValue.str "axis") (JSValue.str "leftX")
            (JSValue.num 1)])
  ∧ validateBatch
      (([⟨"button", "A", JSValue.bool true⟩,
          ⟨"axis", "leftX", JSValue.num 1⟩] : List GamepadEvent).map
            GamepadEvent.toRaw)
      = Except.ok [⟨"button", "A", JSValue.bool true⟩,
          ⟨"axis", "leftX", JSValue.num 1⟩] :=
  claim_c7_batch_identity _ _ rfl

section ManagerLemmas

theorem connect_timer_fields (s : WebSocketHandler) :
    (WebSocketHandler.connect s).wsReconnectInterval = s.wsReconnectInterval
  ∧ (WebSocketHandler.connect s).timers = s.timers := by
  unfold WebSocketHandler.connect
  split <;> exact ⟨rfl, rfl⟩

theorem send_timer_fields (s : WebSocketHandler)
    (ev : GamepadEvent ⊕ List GamepadEvent) :
    (WebSocketHandler.send s ev).wsReconnectInterval = s.wsReconnectInterval
  ∧ (WebSocketHandler.send s ev).timers = s.timers := by
  unfold WebSocketHandler.send
  split
  · exact ⟨rfl, rfl⟩
  · split <;> exact ⟨rfl, rfl⟩

theorem timerInv_congr {a b : WebSocketHandler}
    (h1 : a.wsReconnectInterval = b.wsReconnectInterval)
    (h2 : a.timers = b.timers) (h : TimerInv b) : TimerInv a := by
  rcases h with ⟨x, y⟩ | ⟨t, x, y⟩
  · exact Or.inl ⟨h1.trans x, h2.trans y⟩
  · exact Or.inr ⟨t, h1.trans x, h2.trans y⟩

theorem timerInv_setup {s : WebSocketHandler} (h : TimerInv s) :
    TimerInv (WebSocketHandler.setupReconnection s) := by
  cases hs : s.wsReconnectInterval with
  | some t => simp only [WebSocketHandler.setupReconnection, hs]; exact h
  | none =>
      simp only [WebSocketHandler.setupReconnection, hs]
      refine Or.inr ⟨s.nextTimer, rfl, ?_⟩
      rcases h with ⟨-, h2⟩ | ⟨t, h1, -⟩
      · rw [h2]; rfl
      · rw [hs] at h1; cases h1

theorem timerInv_handleOpen {s : WebSocketHandler} (h : TimerInv s) :
    TimerInv (WebSocketHandler.handleOpen s) := by
  cases hs : s.wsReconnectInterval with
  | none => simp only [WebSocketHandler.handleOpen, hs]; exact h
  | some t =>
      simp only [WebSocketHandler.handleOpen, hs]
      rcases h with ⟨h1, -⟩ | ⟨u, h1, h2⟩
      · rw [hs] at h1; cases h1
      · rw [hs] at h1; cases h1
        refine Or.inl ⟨rfl, ?_⟩
        rw [h2]
        simp [List.erase]

theorem timerInv_step {a b : WebSocketHandler} (hstep : Step a b)
    (h : TimerInv a) : TimerInv b := by
  cases hstep with
  | timerTick t ht =>
      exact timerInv_congr (connect_timer_fields a).1
        (connect_timer_fields a).2 h
  | socketOpen i hi => exact timerInv_handleOpen (timerInv_congr rfl rfl h)
  | socketError i hi => exact h
  | socketClose i hi => exact timerInv_setup (timerInv_congr rfl rfl h)
  | sendCall ev =>
      exact timerInv_congr (send_timer_fields a ev).1
        (send_timer_fields a ev).2 h

theorem reachable_timerInv {s : WebSocketHandler} (h : Reachable s) :
    TimerInv s := by
  induction h with
  | refl => exact Or.inl ⟨by decide, by decide⟩
  | tail hr hstep ih => exact timerInv_step hstep ih

theorem setup_pending_noop (s : WebSocketHandler) (t : Nat)
    (h : s.wsReconnectInterval = some t) :
    WebSocketHandler.setupReconnection s = s := by
  simp only [WebSocketHandler.setupReconnection, h]

theorem setup_field_pending (s : WebSocketHandler) (t : Nat)
    (h : s.wsReconnectInterval = some t) :
    (WebSocketHandler.setupReconnection s).wsReconnectInterval = some t := by
  rw [setup_pending_noop s t h]; exact h

theorem setup_ws (s : WebSocketHandler) :
    (WebSocketHandler.setupReconnection s).ws = s.ws := by
  unfold WebSocketHandler.setupReconnection
  split <;> rfl

theorem setup_isSome (s : WebSocketHandler) :
    ((WebSocketHandler.setupReconnection s).wsReconnectInterval).isSome
      = true := by
  unfold WebSocketHandler.setupReconnection
  split
  · next t heq => rw [heq]; rfl
  · rfl

theorem send_not_open (s : WebSocketHandler)
    (h : ¬ WebSocketHandler.wsReadyState s = some ReadyState.OPEN)
    (ev : GamepadEvent ⊕ List GamepadEvent) :
    WebSocketHandler.send s ev = s := by
  unfold WebSocketHandler.wsReadyState at h
  cases hw : s.ws with
  | none => simp only [WebSocketHandler.send, hw]
  | some i =>
      rw [hw] at h
      simp only [Option.bind] at h
      simp only [WebSocketHandler.send, hw]
      rw [if_neg h]

end ManagerLemmas

/-- C8: the reconnection-timer discipline.  First conjunct: a schedule
request while a timer is already pending is a no-op (never stacks a
second timer).  Second conjunct: in every reachable manager state at most
one reconnection timer is active.  Remaining conjuncts: the open handler
cancels the timer (field cleared and the armed timer removed), while
`connect`, the error handler and the close handler never cancel an armed
timer — so cancellation happens exactly when the transport reports
open. -/
theorem claim_c8_single_timer :
    (∀ s : WebSocketHandler, ∀ t : Nat, s.wsReconnectInterval = some t →
        WebSocketHandler.setupReconnection s = s)
  ∧ (∀ s : WebSocketHandler, Reachable s → s.timers.length ≤ 1)
  ∧ (∀ s : WebSocketHandler,
        (WebSocketHandler.handleOpen s).wsReconnectInterval = none)
  ∧ (∀ s : WebSocketHandler, ∀ t : Nat, s.wsReconnectInterval = some t →
        s.timers = [t] → (WebSocketHandler.handleOpen s).timers = [])
  ∧ (∀ s : WebSocketHandler, ∀ t : Nat, s.wsReconnectInterval = some t →
        (WebSocketHandler.connect s).wsReconnectInterval = some t
      ∧ (WebSocketHandler.handleError s).wsReconnectInterval = some t
      ∧ ∀ i : Nat, (WebSocketHandler.handleClose
            (dropSocket s i)).wsReconnectInterval = some t) := by
  refine ⟨setup_pending_noop, ?_, ?_, ?_, ?_⟩
  · intro s hr
    rcases reachable_timerInv hr with ⟨-, h2⟩ | ⟨t, -, h2⟩ <;> simp [h2]
  · intro s
    cases hs : s.wsReconnectInterval with
    | none => simp only [WebSocketHandler.handleOpen, hs]
    | some t => simp only [WebSocketHandler.handleOpen, hs]
  · intro s t h1 h2
    simp only [WebSocketHandler.handleOpen, h1]
    rw [h2]
    simp [List.erase]
  · intro s t h
    exact ⟨(connect_timer_fields s).1.trans h, h,
      fun i => setup_field_pending _ t h⟩

/-- C8 witness: at the concrete pending state (initial attempt closed,
timer 0 armed) a second schedule request is a no-op, the initial state
has at most one timer, and the open handler cancels timer 0. -/
theorem claim_c8_single_timer_witness :
    WebSocketHandler.setupReconnection pendingWSH = pendingWSH
  ∧ initWSH.timers.length ≤ 1
  ∧ (WebSocketHandler.handleOpen pendingWSH).wsReconnectInterval = none
  ∧ (WebSocketHandler.handleOpen pendingWSH).timers = [] :=
  ⟨claim_c8_single_timer.1 pendingWSH 0 (by decide),
   claim_c8_single_timer.2.1 initWSH Relation.ReflTransGen.refl,
   claim_c8_single_timer.2.2.1 pendingWSH,
   claim_c8_single_timer.2.2.2.1 pendingWSH 0 (by decide) (by decide)⟩

/-- C5 counterexample: a reachable trace (initial attempt closed by the
peer, then two reconnection-timer ticks in a row, the second while the
socket created by the first was still CONNECTING) ends in a state holding
two live socket objects, because `connect()` only guards against an OPEN
socket.  This falsifies the claim that at most one transport instance
exists and that `connect()` never creates a second live socket while a
previous connection attempt is still alive. -/
theorem claim_c5_counterexample :
    Reachable c5s4
  ∧ c5s4 = WebSocketHandler.connect c5s3
  ∧ WebSocketHandler.wsReadyState c5s3 = some ReadyState.CONNECTING
  ∧ c5s3.sockets.length = 1
  ∧ c5s4.sockets.length = 2
  ∧ (c5s4.sockets.map Socket.readyState
      = [ReadyState.CONNECTING, ReadyState.CONNECTING]) := by
  refine ⟨?_, rfl, by decide, by decide, by decide, by decide⟩
  have h1 : Step initWSH c5s2 := Step.socketClose initWSH 0 (by decide)
  have h2 : Step c5s2 c5s3 := Step.timerTick c5s2 0 (by decide)
  have h3 : Step c5s3 c5s4 := Step.timerTick c5s3 0 (by decide)
  exact Relation.ReflTransGen.tail
    (Relation.ReflTransGen.tail (Relation.ReflTransGen.single h1) h2) h3

/-- C5 amended: `connect()` never creates a second socket while the
current one is OPEN — the call is then a no-op; while a previous attempt
is still CONNECTING, however, `connect()` does create a second live
socket (see the counterexample). -/
theorem claim_c5_connect_noop_when_open (s : WebSocketHandler)
    (h : WebSocketHandler.wsReadyState s = some ReadyState.OPEN) :
    WebSocketHandler.connect s = s := by
  unfold WebSocketHandler.connect
  rw [if_pos h]

/-- C5 witness: the concrete connected state is left untouched by a
further `connect()` call. -/
theorem claim_c5_connect_noop_when_open_witness :
    WebSocketHandler.wsReadyState connectedWSH = some ReadyState.OPEN
  ∧ WebSocketHandler.connect connectedWSH = connectedWSH :=
  ⟨by decide, claim_c5_connect_noop_when_open connectedWSH (by decide)⟩

/-- C6 counterexample: in the post-constructor state the manager is
Connecting (its reference points at a CONNECTING socket) with no timer
armed; delivering a transport-error signal leaves the state completely
unchanged — the manager neither transitions to Disconnected (`ws` is
still set) nor schedules a reconnection, falsifying the claimed
error-signal transition. -/
theorem claim_c6_counterexample :
    WebSocketHandler.handleError initWSH = initWSH
  ∧ WebSocketHandler.wsReadyState initWSH = some ReadyState.CONNECTING
  ∧ initWSH.ws ≠ none
  ∧ initWSH.wsReconnectInterval = none :=
  ⟨rfl, by decide, by decide, by decide⟩

/-- C6 amended: a transport-error or handshake-timeout signal is only
logged — the error handler is the identity on the manager state; the
transition to Disconnected (`ws` nulled) with a reconnection scheduled
happens when the subsequent transport-closed signal runs the close
handler. -/
theorem claim_c6_error_logs_close_schedules (s : WebSocketHandler)
    (i : Nat) :
    WebSocketHandler.handleError s = s
  ∧ (WebSocketHandler.handleClose (dropSocket s i)).ws = none
  ∧ ((WebSocketHandler.handleClose
        (dropSocket s i)).wsReconnectInterval).isSome = true := by
  refine ⟨rfl, ?_, setup_isSome _⟩
  unfold WebSocketHandler.handleClose
  rw [setup_ws]

/-- C10: when the manager's socket is OPEN, `send` transmits exactly one
frame whose payload is `{ events: [...] }` — a single event is wrapped
into a one-element array, an array argument is transmitted as-is in its
original order. -/
theorem claim_c10_send_one_frame (s : WebSocketHandler) (e : GamepadEvent)
    (l : List GamepadEvent)
    (h : WebSocketHandler.wsReadyState s = some ReadyState.OPEN) :
    (WebSocketHandler.send s (Sum.inl e)).sent = s.sent ++ [⟨[e]⟩]
  ∧ (WebSocketHandler.send s (Sum.inr l)).sent = s.sent ++ [⟨l⟩] := by
  unfold WebSocketHandler.wsReadyState at h
  cases hw : s.ws with
  | none => rw [hw] at h; cases h
  | some i =>
      rw [hw] at h
      simp only [Option.bind] at h
      constructor <;> (simp only [WebSocketHandler.send, hw]; rw [if_pos h])

/-- C10 witness: at the concrete connected state, sending a single event
appends one wrapped frame and sending a two-event array appends that
array as one frame. -/
theorem claim_c10_send_one_frame_witness :
    (WebSocketHandler.send connectedWSH
        (Sum.inl ⟨"button", "A", JSValue.bool true⟩)).sent
      = connectedWSH.sent ++ [⟨[⟨"button", "A", JSValue.bool true⟩]⟩]
  ∧ (WebSocketHandler.send connectedWSH
        (Sum.inr [⟨"button", "A", JSValue.bool true⟩,
          ⟨"button", "B", JSValue.bool false⟩])).sent
      = connectedWSH.sent ++ [⟨[⟨"button", "A", JSValue.bool true⟩,
          ⟨"button", "B", JSValue.bool false⟩]⟩] :=
  claim_c10_send_one_frame connectedWSH _ _ (by decide)

/-- C9: submitting a wholly valid batch while the transport is not
connected still returns the success descriptor with `eventsReceived`
equal to the batch length, surfaces no error, and transmits nothing (the
transport's frame log is unchanged). -/
theorem claim_c9_disconnected_submit (srv : GamepadServer)
    (es : List RawEvent) (gs : List GamepadEvent)
    (hval : validateBatch es = Except.ok gs)
    (hdis : ¬ WebSocketHandler.wsReadyState srv.wsHandler
        = some ReadyState.OPEN) :
    (srv.handleCallTool "send_gamepad_event" (ToolArgs.eventsArray es)).2
        = Except.ok ⟨true, es.length, "Events validated and sent successfully"⟩
  ∧ (srv.handleCallTool "send_gamepad_event"
        (ToolArgs.eventsArray es)).1.wsHandler.sent
      = srv.wsHandler.sent := by
  simp only [GamepadServer.handleCallTool, if_pos rfl, hval]
  rw [validateBatch_ok_length hval, send_not_open srv.wsHandler hdis]
  exact ⟨rfl, rfl⟩

/-- C9 witness: the spec scenario — one valid button event submitted in
the initial (still connecting) state yields `eventsReceived = 1` and no
transmitted frame. -/
theorem claim_c9_disconnected_submit_witness :
    (initGamepadServer.handleCallTool "send_gamepad_event"
        (ToolArgs.eventsArray [RawEvent.obj (JSValue.str "button")
          (JSValue.str "A") (JSValue.bool true)])).2
      = Except.ok ⟨true, 1, "Events validated and sent successfully"⟩
  ∧ (initGamepadServer.handleCallTool "send_gamepad_event"
        (ToolArgs.eventsArray [RawEvent.obj (JSValue.str "button")
          (JSValue.str "A") (JSValue.bool true)])).1.wsHandler.sent
      = initGamepadServer.wsHandler.sent :=
  claim_c9_disconnected_submit initGamepadServer _
    [⟨"button", "A", JSValue.bool true⟩] rfl (by decide)

/-- C1: evaluation of the failing input on the refactored handler
variant.  Submitting the batch `[{type: "trigger", code: "leftTrigger",
value: -1}]` while connected is rejected with InvalidParams (the second
validation pass requires trigger values in [0, 1]), yet the whole batch
has already been transmitted to the transport and `lastEvents` has
already been overwritten — contradicting the claim that a rejected batch
forwards nothing and leaves `lastEvents` unchanged. -/
theorem claim_c1_postsend_rejection :
    (strictConnServer.handleCallToolStrict "send_gamepad_event"
        (ToolArgs.eventsArray [RawEvent.obj (JSValue.str "trigger")
          (JSValue.str "leftTrigger") (JSValue.num (-1))])).2
      = Except.error ⟨ErrorCode.invalidParams,
          "Trigger values must be numbers between 0 and 1"⟩
  ∧ (strictConnServer.handleCallToolStrict "send_gamepad_event"
        (ToolArgs.eventsArray [RawEvent.obj (JSValue.str "trigger")
          (JSValue.str "leftTrigger") (JSValue.num (-1))])).1.wsHandler.sent
      = [⟨[⟨"trigger", "leftTrigger", JSValue.num (-1)⟩]⟩]
  ∧ (strictConnServer.handleCallToolStrict "send_gamepad_event"
        (ToolArgs.eventsArray [RawEvent.obj (JSValue.str "trigger")
          (JSValue.str "leftTrigger") (JSValue.num (-1))])).1.lastEvents
      = [⟨"trigger", "leftTrigger", JSValue.num (-1)⟩]
  ∧ strictConnServer.wsHandler.sent = []
  ∧ strictConnServer.lastEvents = [] :=
  ⟨rfl, rfl, rfl, rfl, rfl⟩

/-- C3 counterexample: an empty `events` array passes the envelope guard
(which only checks presence and array-ness) and is answered with a
success result carrying `eventsReceived = 0`, falsifying the claim that
an empty batch is never answered with success. -/
theorem claim_c3_empty_batch_success :
    (initGamepadServer.handleCallTool "send_gamepad_event"
        (ToolArgs.eventsArray [])).2
      = Except.ok ⟨true, 0, "Events validated and sent successfully"⟩ := rfl

/-- C3 amended: an absent, non-object or non-array `rawEvents` argument
is rejected with an InvalidParams error; an empty sequence, however,
passes the guard and is answered with success (`eventsReceived = 0`). -/
theorem claim_c3_envelope_guard (srv : GamepadServer) (v : JSValue) :
    (srv.handleCallTool "send_gamepad_event" ToolArgs.absent).2
        = Except.error ⟨ErrorCode.invalidParams,
            "Invalid event message format: missing or invalid events array"⟩
  ∧ (srv.handleCallTool "send_gamepad_event" ToolArgs.missingEvents).2
        = Except.error ⟨ErrorCode.invalidParams,
            "Invalid event message format: missing or invalid events array"⟩
  ∧ (srv.handleCallTool "send_gamepad_event" (ToolArgs.eventsNonArray v)).2
        = Except.error ⟨ErrorCode.invalidParams,
            "Invalid event message format: missing or invalid events array"⟩
  ∧ (srv.handleCallTool "send_gamepad_event" (ToolArgs.eventsArray [])).2
        = Except.ok ⟨true, 0, "Events validated and sent successfully"⟩ :=
  ⟨rfl, rfl, rfl, rfl⟩

end Mcpgame
